import Mathlib

/-!
Shallow embedding of the Agno bridge (server/agno/agnoBridge.py): an in-memory
registry CRUD layer over four entity kinds (models, agents, tools, memory
managers) with stubbed model invocation.  Python dictionaries become
association lists with insertion-order update semantics, handlers become pure
functions from a bridge state and parsed parameters to an HTTP-style result
paired with the next state, and Python exceptions surface as error results.
Machine-level caveats: Python str.lower is modelled on ASCII via Char.toLower,
and the float temperature is modelled as a rational literal (it is only stored
and compared, never computed with).
-/

namespace AgnoBridge

/-- ASCII lowercase of a string, modelling Python str.lower on the ASCII
provider names this program compares against. -/
def lowerStr (s : String) : String := ⟨s.data.map Char.toLower⟩

/-- Which mock provider class a stored model handle is an instance of:
OpenAIChat or Claude. -/
inductive Provider where
  | openai
  | anthropic
  deriving DecidableEq

/-- The Message class: a role and a content string. -/
structure Message where
  role : String
  content : String
  deriving DecidableEq

/-- A stored model instance: the common fields of the OpenAIChat and Claude
classes, tagged by which class it is. -/
structure ModelHandle where
  provider : Provider
  id : String
  name : String
  api_key : Option String
  temperature : Rat
  max_tokens : Option Int
  system_prompt : Option String
  deriving DecidableEq

/-- The Response class: a message plus tool_calls (None at every construction
site in the program). -/
structure Response where
  message : Message
  tool_calls : Option String
  deriving DecidableEq

/-- OpenAIChat.__init__. -/
def OpenAIChat (id name : String) (api_key : Option String) (temperature : Rat)
    (max_tokens : Option Int) (system_prompt : Option String) : ModelHandle :=
  ⟨Provider.openai, id, name, api_key, temperature, max_tokens, system_prompt⟩

/-- Claude.__init__. -/
def Claude (id name : String) (api_key : Option String) (temperature : Rat)
    (max_tokens : Option Int) (system_prompt : Option String) : ModelHandle :=
  ⟨Provider.anthropic, id, name, api_key, temperature, max_tokens, system_prompt⟩

/-- OpenAIChat.response / Claude.response: the stubbed model call; ignores the
messages and returns a fixed canned assistant message per provider class. -/
def ModelHandle.response (m : ModelHandle) (messages : List Message) : Response :=
  match m.provider with
  | Provider.openai =>
      { message := { role := "assistant",
                     content := "This is a response from the simulated OpenAI model." },
        tool_calls := none }
  | Provider.anthropic =>
      { message := { role := "assistant",
                     content := "This is a response from the simulated Claude model." },
        tool_calls := none }

/-- The Function class (a tool): name, description, parameters (an opaque JSON
schema object, modelled as a key/value list). -/
structure Function where
  name : String
  description : Option String
  parameters : List (String × String)
  deriving DecidableEq

/-- The Agent class fields. -/
structure Agent where
  name : String
  agent_id : String
  model : Option ModelHandle
  system_message : Option String
  tools : List AgnoBridge.Function
  user_message : Option String
  session_id : Option String
  deriving DecidableEq

/-- Function.__init__: `self.parameters = parameters or {}` (None and the
empty dict both become the empty dict). -/
def Function.init (name : String) (description : Option String)
    (parameters : Option (List (String × String))) : AgnoBridge.Function :=
  ⟨name, description, parameters.getD []⟩

/-- Agent.__init__: `self.tools = tools or []`, user_message and session_id
start as None. -/
def Agent.init (name agent_id : String) (model : Option ModelHandle)
    (system_message : Option String) (tools : Option (List AgnoBridge.Function)) : Agent :=
  ⟨name, agent_id, model, system_message, tools.getD [], none, none⟩

/-- Python f-string interpolation of an optional value: None prints as
"None". -/
def formatOpt : Option String → String
  | some s => s
  | none => "None"

/-- Agent.run: the stubbed agent execution. -/
def Agent.run (a : Agent) : String :=
  match a.model with
  | some _ => "I am " ++ a.name ++ ", executing a response based on: " ++ formatOpt a.user_message
  | none => "No model available for this agent"

/-- The Memory class: a single stored content string. -/
structure Memory where
  content : String
  deriving DecidableEq

/-- The MemoryManager class fields. -/
structure MemoryManager where
  model : Option ModelHandle
  limit : Int
  memories : List Memory
  deriving DecidableEq

/-- MemoryManager.__init__: memories start empty. -/
def MemoryManager.init (model : Option ModelHandle) (limit : Int) : MemoryManager :=
  ⟨model, limit, []⟩

/-- MemoryManager.add_memory: if `len(self.memories) >= self.limit` pop the
oldest entry (IndexError — modelled as none — when the list is empty, which
requires limit <= 0), then append the new Memory and return True. -/
def MemoryManager.add_memory (mm : MemoryManager) (content : String) :
    Option (Bool × MemoryManager) :=
  if mm.limit ≤ (mm.memories.length : Int) then
    match mm.memories with
    | [] => none
    | _ :: rest => some (true, { mm with memories := rest ++ [Memory.mk content] })
  else
    some (true, { mm with memories := mm.memories ++ [Memory.mk content] })

/-- Fold a sequence of add_memory calls, propagating an IndexError. -/
def addAll (mm : MemoryManager) : List String → Option MemoryManager
  | [] => some mm
  | c :: cs =>
    match mm.add_memory c with
    | none => none
    | some (_, mm1) => addAll mm1 cs

/-- Python dict lookup (`d[k]` / `d.get(k)` / `k in d`) on an association
list. -/
def dictGet {α : Type} : List (String × α) → String → Option α
  | [], _ => none
  | (k1, v) :: rest, k => if k = k1 then some v else dictGet rest k

/-- Python dict assignment `d[k] = v`: replaces in place when the key exists
(keeping its position), otherwise appends. -/
def dictSet {α : Type} : List (String × α) → String → α → List (String × α)
  | [], k, v => [(k, v)]
  | (k1, v1) :: rest, k, v =>
    if k1 = k then (k, v) :: rest else (k1, v1) :: dictSet rest k v

/-- The four module-level registries. -/
structure BridgeState where
  models : List (String × ModelHandle)
  agents : List (String × Agent)
  memory_managers : List (String × MemoryManager)
  tools : List (String × AgnoBridge.Function)
  deriving DecidableEq

/-- All registries start empty. -/
def initState : BridgeState := ⟨[], [], [], []⟩

/-- os.environ, read for the provider API key variables. -/
def EnvMap : Type := String → Option String

/-- An empty environment, for concrete instantiations. -/
def env0 : EnvMap := fun _ => none

/-- Truthiness of an optional string (Python: None and "" are falsy). -/
def truthyS : Option String → Bool
  | some s => !(s == "")
  | none => false

/-- Truthiness of an optional integer (Python: None and 0 are falsy). -/
def truthyI : Option Int → Bool
  | some n => !(n == 0)
  | none => false

/-- The outcome of one request handler: a 200 JSON body, or an error status
with its error message. -/
inductive HResult (α : Type) where
  | ok (body : α)
  | err (status : Nat) (error : String)
  deriving DecidableEq

/-- The config object of a POST /models body. -/
structure ModelConfig where
  model : Option String
  temperature : Option Rat
  maxTokens : Option Int
  systemPrompt : Option String
  deriving DecidableEq

/-- The POST /models body. -/
structure CreateModelParams where
  type : Option String
  id : Option String
  name : Option String
  config : Option ModelConfig
  deriving DecidableEq

/-- The success body of POST /models. -/
structure CreateModelBody where
  id : String
  name : String
  type : String
  status : String
  deriving DecidableEq

/-- The create_model handler (POST /models). -/
def create_model (env : EnvMap) (s : BridgeState) (params : CreateModelParams) :
    HResult CreateModelBody × BridgeState :=
  let model_type := params.type.getD "openai"
  let model_id := params.id.getD "default-model"
  let model_name := params.name.getD "Default Model"
  let model_config := params.config.getD ⟨none, none, none, none⟩
  if lowerStr model_type = "openai" then
    let model := OpenAIChat (model_config.model.getD "gpt-4o") model_name
      (env "OPENAI_API_KEY") (model_config.temperature.getD 0.7)
      model_config.maxTokens model_config.systemPrompt
    (HResult.ok ⟨model_id, model_name, model_type, "created"⟩,
      { s with models := dictSet s.models model_id model })
  else if lowerStr model_type = "anthropic" then
    let model := Claude (model_config.model.getD "claude-3-7-sonnet-20250219") model_name
      (env "ANTHROPIC_API_KEY") (model_config.temperature.getD 0.7)
      model_config.maxTokens model_config.systemPrompt
    (HResult.ok ⟨model_id, model_name, model_type, "created"⟩,
      { s with models := dictSet s.models model_id model })
  else
    (HResult.err 400 ("Unsupported model type: " ++ model_type), s)

/-- One element of the messages array of POST /models/:id/generate. -/
structure MsgParam where
  role : Option String
  content : Option String
  deriving DecidableEq

/-- The success body of POST /models/:id/generate. -/
structure GenerateBody where
  content : String
  role : String
  tool_calls : Option String
  deriving DecidableEq

/-- The generate_response handler (POST /models/:id/generate). -/
def generate_response (s : BridgeState) (model_id : String) (messages : List MsgParam) :
    HResult GenerateBody × BridgeState :=
  match dictGet s.models model_id with
  | none => (HResult.err 404 ("Model " ++ model_id ++ " not found"), s)
  | some model =>
    let agno_messages := messages.map fun msg =>
      Message.mk (msg.role.getD "user") (msg.content.getD "")
    let response := model.response agno_messages
    (HResult.ok ⟨response.message.content, response.message.role, response.tool_calls⟩, s)

/-- The POST /agents body. -/
structure CreateAgentParams where
  id : Option String
  name : Option String
  modelId : Option String
  systemPrompt : Option String
  tools : Option (List String)
  deriving DecidableEq

/-- The success body of POST /agents. -/
structure CreateAgentBody where
  id : String
  name : String
  status : String
  deriving DecidableEq

/-- The create_agent handler (POST /agents). -/
def create_agent (s : BridgeState) (params : CreateAgentParams) :
    HResult CreateAgentBody × BridgeState :=
  let agent_id := params.id.getD "default-agent"
  let agent_name := params.name.getD "Default Agent"
  let model_id := params.modelId
  let system_prompt := params.systemPrompt.getD ""
  let tools_list := params.tools.getD []
  if truthyS model_id ∧ dictGet s.models (model_id.getD "") = none then
    (HResult.err 404 ("Model " ++ model_id.getD "" ++ " not found"), s)
  else
    let model := if truthyS model_id then dictGet s.models (model_id.getD "") else none
    let agent_tools := tools_list.filterMap fun tool_id => dictGet s.tools tool_id
    let agent := Agent.init agent_name agent_id model (some system_prompt)
      (if agent_tools.isEmpty then none else some agent_tools)
    (HResult.ok ⟨agent_id, agent_name, "created"⟩,
      { s with agents := dictSet s.agents agent_id agent })

/-- The POST /agents/:id/run body; workspaceId is a JSON number in the calling
application, stringified by the handler. -/
structure RunAgentParams where
  message : Option String
  workspaceId : Option Int
  deriving DecidableEq

/-- The success body of POST /agents/:id/run. -/
structure RunAgentBody where
  content : String
  agentId : String
  workspaceId : Option Int
  deriving DecidableEq

/-- The run_agent handler (POST /agents/:id/run): mutates the stored agent's
user_message, and its session_id when workspaceId is truthy, then runs it. -/
def run_agent (s : BridgeState) (agent_id : String) (params : RunAgentParams) :
    HResult RunAgentBody × BridgeState :=
  match dictGet s.agents agent_id with
  | none => (HResult.err 404 ("Agent " ++ agent_id ++ " not found"), s)
  | some agent =>
    let message := params.message.getD ""
    let workspace_id := params.workspaceId
    let agent1 := { agent with user_message := some message }
    let agent2 :=
      if truthyI workspace_id then
        { agent1 with session_id := some (toString (workspace_id.getD 0)) }
      else agent1
    let response := agent2.run
    (HResult.ok ⟨response, agent_id, workspace_id⟩,
      { s with agents := dictSet s.agents agent_id agent2 })

/-- The POST /tools body. -/
structure CreateToolParams where
  id : Option String
  name : Option String
  description : Option String
  parameters : Option (List (String × String))
  deriving DecidableEq

/-- The success body of POST /tools. -/
structure CreateToolBody where
  id : String
  name : String
  status : String
  deriving DecidableEq

/-- The create_tool handler (POST /tools). -/
def create_tool (s : BridgeState) (params : CreateToolParams) :
    HResult CreateToolBody × BridgeState :=
  let tool_id := params.id.getD "default-tool"
  let tool_name := params.name.getD "Default Tool"
  let tool_description := params.description.getD ""
  let tool_parameters := params.parameters.getD []
  let tool := Function.init tool_name (some tool_description) (some tool_parameters)
  (HResult.ok ⟨tool_id, tool_name, "created"⟩,
    { s with tools := dictSet s.tools tool_id tool })

/-- The POST /memory body. -/
structure CreateMemoryParams where
  id : Option String
  modelId : Option String
  limit : Option Int
  deriving DecidableEq

/-- The success body of POST /memory. -/
structure CreateMemoryBody where
  id : String
  status : String
  deriving DecidableEq

/-- The create_memory_manager handler (POST /memory). -/
def create_memory_manager (s : BridgeState) (params : CreateMemoryParams) :
    HResult CreateMemoryBody × BridgeState :=
  let memory_id := params.id.getD "default-memory"
  let model_id := params.modelId
  if truthyS model_id ∧ dictGet s.models (model_id.getD "") = none then
    (HResult.err 404 ("Model " ++ model_id.getD "" ++ " not found"), s)
  else
    let model := if truthyS model_id then dictGet s.models (model_id.getD "") else none
    let memory_manager := MemoryManager.init model (params.limit.getD 100)
    (HResult.ok ⟨memory_id, "created"⟩,
      { s with memory_managers := dictSet s.memory_managers memory_id memory_manager })

/-- A concrete openai model handle, used for concrete instantiations. -/
def wModel : ModelHandle := OpenAIChat "gpt-4o" "Default Model" none 0.7 none none

/-- A concrete state holding one model under id m1. -/
def wStateM : BridgeState := ⟨[("m1", wModel)], [], [], []⟩

/-- A concrete agent with no model. -/
def agentNoModel : Agent := Agent.init "Agent X" "a1" none (some "") none

/-- A concrete state holding one agent under id a1. -/
def wStateA : BridgeState := ⟨[], [("a1", agentNoModel)], [], []⟩

/-- A concrete agent whose session_id was previously set to "5". -/
def agentSession5 : Agent := ⟨"A", "a1", none, some "", [], none, some "5"⟩

/-- A concrete state holding agentSession5 under id a1. -/
def cexState7 : BridgeState := ⟨[], [("a1", agentSession5)], [], []⟩

/-- A concrete tool registry holding tools t1 and t2. -/
def wTools : List (String × AgnoBridge.Function) :=
  [("t1", ⟨"Tool One", some "", []⟩), ("t2", ⟨"Tool Two", some "", []⟩)]

/-- A concrete state holding the two tools of wTools. -/
def wState5 : BridgeState := ⟨[], [], [], wTools⟩

/-- The success body of POST /memory/:id/add. -/
structure AddMemoryBody where
  result : Bool
  status : String
  deriving DecidableEq

/-- The add_memory handler (POST /memory/:id/add); an IndexError raised by the
pop is caught by the handler's except clause and becomes a 500. -/
def add_memory (s : BridgeState) (memory_id : String) (content : Option String) :
    HResult AddMemoryBody × BridgeState :=
  match dictGet s.memory_managers memory_id with
  | none => (HResult.err 404 ("Memory manager " ++ memory_id ++ " not found"), s)
  | some memory_manager =>
    match memory_manager.add_memory (content.getD "") with
    | none => (HResult.err 500 "pop from empty list", s)
    | some (result, mm1) =>
      (HResult.ok ⟨result, "success"⟩,
        { s with memory_managers := dictSet s.memory_managers memory_id mm1 })

/-! ### General lemmas about the registry dictionary operations -/

theorem dictGet_dictSet_self {α : Type} (m : List (String × α)) (k : String) (v : α) :
    dictGet (dictSet m k v) k = some v := by
  induction m with
  | nil => simp [dictGet, dictSet]
  | cons kv rest ih =>
    obtain ⟨k1, v1⟩ := kv
    by_cases h : k1 = k
    · simp [dictGet, dictSet, h]
    · simp [dictGet, dictSet, h, Ne.symm h, ih]

theorem dictGet_dictSet_ne {α : Type} (m : List (String × α)) (k k2 : String) (v : α)
    (h : k2 ≠ k) : dictGet (dictSet m k v) k2 = dictGet m k2 := by
  induction m with
  | nil => simp [dictGet, dictSet, h]
  | cons kv rest ih =>
    obtain ⟨k1, v1⟩ := kv
    by_cases h1 : k1 = k
    · subst h1
      simp [dictGet, dictSet, h]
    · by_cases h2 : k = k1
      · exact absurd h2.symm h1
      · simp only [dictSet, if_neg h1]
        by_cases h3 : k2 = k1
        · simp [dictGet, h3]
        · simp [dictGet, h3, ih]

/-! ### Lemmas about MemoryManager.add_memory -/

theorem add_memory_eq (mm : MemoryManager) (c : String) (hcap : 1 ≤ mm.limit)
    (hlen : (mm.memories.length : Int) ≤ mm.limit) :
    mm.add_memory c = some (true,
      if (mm.memories.length : Int) = mm.limit
      then { mm with memories := mm.memories.tail ++ [Memory.mk c] }
      else { mm with memories := mm.memories ++ [Memory.mk c] }) := by
  unfold MemoryManager.add_memory
  by_cases h : mm.limit ≤ (mm.memories.length : Int)
  · have hl : (mm.memories.length : Int) = mm.limit := le_antisymm hlen h
    rw [if_pos h, if_pos hl]
    rcases hm : mm.memories with _ | ⟨a, rest⟩
    · exfalso
      rw [hm] at hl
      simp at hl
      omega
    · simp
  · have hne : ¬((mm.memories.length : Int) = mm.limit) := fun he => h (le_of_eq he.symm)
    rw [if_neg h, if_neg hne]

theorem addAll_append (cs ds : List String) : ∀ mm : MemoryManager,
    addAll mm (cs ++ ds) = (addAll mm cs).bind fun mm1 => addAll mm1 ds := by
  induction cs with
  | nil => intro mm; rfl
  | cons c cs ih =>
    intro mm
    simp only [List.cons_append, addAll]
    cases h : mm.add_memory c with
    | none => rfl
    | some p =>
      obtain ⟨b, mm1⟩ := p
      exact ih mm1

theorem addAll_init (model : Option ModelHandle) (cap : Int) (hcap : 1 ≤ cap)
    (cs : List String) :
    addAll (MemoryManager.init model cap) cs =
      some ⟨model, cap, (cs.map Memory.mk).drop (cs.length - cap.toNat)⟩ := by
  induction cs using List.reverseRecOn with
  | nil => simp [addAll, MemoryManager.init]
  | append_singleton cs c ih =>
    rw [addAll_append, ih, Option.some_bind]
    have hlen : (((cs.map Memory.mk).drop (cs.length - cap.toNat)).length : Int) ≤ cap := by
      rw [List.length_drop, List.length_map]
      omega
    simp only [addAll]
    rw [add_memory_eq _ c hcap hlen]
    by_cases hbig : cap.toNat ≤ cs.length
    · have hl : ((((cs.map Memory.mk).drop (cs.length - cap.toNat)).length : Nat) : Int) = cap := by
        rw [List.length_drop, List.length_map]
        omega
      rw [if_pos hl]
      simp only [List.tail_drop, List.map_append, List.length_append, List.length_singleton,
        List.map_cons, List.map_nil]
      rw [List.drop_append_of_le_length (by rw [List.length_map]; omega)]
      have harith : cs.length - cap.toNat + 1 = cs.length + 1 - cap.toNat := by omega
      rw [harith]
    · have hl : ¬((((cs.map Memory.mk).drop (cs.length - cap.toNat)).length : Nat) : Int) = cap := by
        rw [List.length_drop, List.length_map]
        omega
      rw [if_neg hl]
      have h0 : cs.length - cap.toNat = 0 := by omega
      have h1 : (cs ++ [c]).length - cap.toNat = 0 := by simp; omega
      rw [h0, h1]
      simp

/-! ### Claim theorems -/

/-- C1: for every memory manager created with capacity at least 1, any sequence
of add_memory calls succeeds and leaves the entries equal to the most recently
added contents in insertion order, with length at most the capacity; when the
manager is exactly at capacity an insertion evicts the single oldest entry
(FIFO); and for capacity 2, adding "a", "b", "c" leaves entries ["b", "c"]. -/
theorem C1_memory_fifo_invariant :
    (∀ (model : Option ModelHandle) (cap : Int), 1 ≤ cap → ∀ cs : List String,
      addAll (MemoryManager.init model cap) cs =
        some ⟨model, cap, (cs.map Memory.mk).drop (cs.length - cap.toNat)⟩ ∧
      (((cs.map Memory.mk).drop (cs.length - cap.toNat)).length : Int) ≤ cap) ∧
    (∀ (mm : MemoryManager) (c : String), 1 ≤ mm.limit →
      (mm.memories.length : Int) = mm.limit →
      mm.add_memory c = some (true, { mm with memories := mm.memories.tail ++ [Memory.mk c] })) ∧
    addAll (MemoryManager.init none 2) ["a", "b", "c"] =
      some ⟨none, 2, [Memory.mk "b", Memory.mk "c"]⟩ := by
  refine ⟨?_, ?_, ?_⟩
  · intro model cap hcap cs
    refine ⟨addAll_init model cap hcap cs, ?_⟩
    rw [List.length_drop, List.length_map]
    omega
  · intro mm c hcap hlen
    rw [add_memory_eq mm c hcap (le_of_eq hlen), if_pos hlen]
  · decide

/-- Witness for C1 at capacity 2 with contents ["x", "y", "z"]. -/
theorem C1_memory_fifo_invariant_witness :
    (addAll (MemoryManager.init none 2) ["x", "y", "z"] =
      some ⟨none, 2, (["x", "y", "z"].map Memory.mk).drop (["x", "y", "z"].length - (2 : Int).toNat)⟩ ∧
      (((["x", "y", "z"].map Memory.mk).drop (["x", "y", "z"].length - (2 : Int).toNat)).length : Int) ≤ 2) ∧
    MemoryManager.add_memory ⟨none, 1, [Memory.mk "old"]⟩ "new" =
      some (true, ⟨none, 1, [Memory.mk "new"]⟩) :=
  ⟨C1_memory_fifo_invariant.1 none 2 (by decide) ["x", "y", "z"],
   C1_memory_fifo_invariant.2.1 ⟨none, 1, [Memory.mk "old"]⟩ "new" (by decide) (by decide)⟩

/-- C2: generate on a model id present in the registry succeeds for every
messages list, returning role "assistant", null tool calls, and as content the
fixed canned string determined only by the provider kind of the stored model;
the registries are untouched. -/
theorem C2_generate_canned (s : BridgeState) (model_id : String) (m : ModelHandle)
    (messages : List MsgParam) (h : dictGet s.models model_id = some m) :
    generate_response s model_id messages =
      (HResult.ok ⟨(match m.provider with
        | Provider.openai => "This is a response from the simulated OpenAI model."
        | Provider.anthropic => "This is a response from the simulated Claude model."),
        "assistant", none⟩, s) := by
  unfold generate_response
  rw [h]
  cases hp : m.provider <;> simp [ModelHandle.response, hp]

/-- Witness for C2 on a one-model registry. -/
theorem C2_generate_canned_witness :
    generate_response wStateM "m1" [⟨some "user", some "ignored input"⟩] =
      (HResult.ok ⟨(match wModel.provider with
        | Provider.openai => "This is a response from the simulated OpenAI model."
        | Provider.anthropic => "This is a response from the simulated Claude model."),
        "assistant", none⟩, wStateM) :=
  C2_generate_canned wStateM "m1" wModel [⟨some "user", some "ignored input"⟩] rfl

/-- C8: generate on a model id absent from the registry returns a 404 error
body and leaves the whole state, hence all four registries, unchanged. -/
theorem C8_generate_unknown_model (s : BridgeState) (model_id : String)
    (messages : List MsgParam) (h : dictGet s.models model_id = none) :
    generate_response s model_id messages =
      (HResult.err 404 ("Model " ++ model_id ++ " not found"), s) := by
  unfold generate_response
  rw [h]

/-- Witness for C8 on the empty initial state. -/
theorem C8_generate_unknown_model_witness :
    generate_response initState "missing" [] =
      (HResult.err 404 ("Model " ++ "missing" ++ " not found"), initState) :=
  C8_generate_unknown_model initState "missing" [] rfl

/-- C3 counterexample: the type string "OpenAI" is neither "openai" nor
"anthropic", yet create_model succeeds (200, status created) and mutates the
model registry, because the code matches the type case-insensitively. -/
theorem C3_unsupported_type_counterexample :
    (("OpenAI" : String) ≠ "openai" ∧ ("OpenAI" : String) ≠ "anthropic") ∧
    (create_model env0 initState ⟨some "OpenAI", some "m1", none, none⟩).1 =
      HResult.ok ⟨"m1", "Default Model", "OpenAI", "created"⟩ ∧
    (create_model env0 initState ⟨some "OpenAI", some "m1", none, none⟩).2 ≠ initState := by
  refine ⟨⟨by decide, by decide⟩, rfl, ?_⟩
  intro h
  have h2 : ((create_model env0 initState ⟨some "OpenAI", some "m1", none, none⟩).2).models
      = initState.models := by rw [h]
  simp [create_model, initState, dictSet, lowerStr, env0] at h2

/-- C3 (amended): a createModel call whose type string lowercases to neither
"openai" nor "anthropic" returns 400 with message "Unsupported model type:
{type}" and leaves the whole state, hence every registry, unchanged. -/
theorem C3_unsupported_type (env : EnvMap) (s : BridgeState) (p : CreateModelParams)
    (t : String) (ht : p.type = some t)
    (h1 : lowerStr t ≠ "openai") (h2 : lowerStr t ≠ "anthropic") :
    create_model env s p = (HResult.err 400 ("Unsupported model type: " ++ t), s) := by
  unfold create_model
  rw [ht]
  simp [Option.getD, h1, h2]

/-- Witness for C3 (amended) at type "unsupported". -/
theorem C3_unsupported_type_witness :
    create_model env0 initState ⟨some "unsupported", none, none, none⟩ =
      (HResult.err 400 ("Unsupported model type: " ++ "unsupported"), initState) :=
  C3_unsupported_type env0 initState ⟨some "unsupported", none, none, none⟩
    "unsupported" rfl (by decide) (by decide)

/-- C9: createModel with type "openai", or type absent (which defaults to
openai), and no config stores OpenAIChat("gpt-4o") with temperature 0.7 and
absent max_tokens and system_prompt, and returns id, name, echoed type and
status created. -/
theorem C9_openai_defaults (env : EnvMap) (s : BridgeState) (p : CreateModelParams)
    (ht : p.type = none ∨ p.type = some "openai") (hc : p.config = none) :
    create_model env s p =
      (HResult.ok ⟨p.id.getD "default-model", p.name.getD "Default Model",
        p.type.getD "openai", "created"⟩,
       { s with models := (dictSet s.models (p.id.getD "default-model")
           (OpenAIChat "gpt-4o" (p.name.getD "Default Model") (env "OPENAI_API_KEY")
             0.7 none none)) }) := by
  have hlow : lowerStr "openai" = "openai" := by decide
  unfold create_model
  rcases ht with ht | ht <;> rw [ht, hc] <;> simp [Option.getD, hlow]

/-- Witness for C9 with an entirely empty request body. -/
theorem C9_openai_defaults_witness :
    create_model env0 initState ⟨none, none, none, none⟩ =
      (HResult.ok ⟨(none : Option String).getD "default-model",
        (none : Option String).getD "Default Model",
        (none : Option String).getD "openai", "created"⟩,
       { initState with models := (dictSet initState.models
           ((none : Option String).getD "default-model")
           (OpenAIChat "gpt-4o" ((none : Option String).getD "Default Model")
             (env0 "OPENAI_API_KEY") 0.7 none none)) }) :=
  C9_openai_defaults env0 initState ⟨none, none, none, none⟩ (Or.inl rfl) rfl

/-- C10: type matching is case-insensitive: a type whose ASCII lowercase form
is "openai" (resp. "anthropic") creates an OpenAIChat (resp. Claude) handle,
and the success body echoes the caller's original casing of the type. -/
theorem C10_case_insensitive_type :
    (∀ (env : EnvMap) (s : BridgeState) (p : CreateModelParams) (t : String),
      p.type = some t → lowerStr t = "openai" →
      (create_model env s p).1 = HResult.ok ⟨p.id.getD "default-model",
        p.name.getD "Default Model", t, "created"⟩ ∧
      (dictGet ((create_model env s p).2).models (p.id.getD "default-model")).map
        ModelHandle.provider = some Provider.openai) ∧
    (∀ (env : EnvMap) (s : BridgeState) (p : CreateModelParams) (t : String),
      p.type = some t → lowerStr t = "anthropic" →
      (create_model env s p).1 = HResult.ok ⟨p.id.getD "default-model",
        p.name.getD "Default Model", t, "created"⟩ ∧
      (dictGet ((create_model env s p).2).models (p.id.getD "default-model")).map
        ModelHandle.provider = some Provider.anthropic) := by
  constructor
  · intro env s p t ht hlow
    unfold create_model
    rw [ht]
    simp [Option.getD, hlow, dictGet_dictSet_self, OpenAIChat]
  · intro env s p t ht hlow
    have hne : lowerStr t ≠ "openai" := by rw [hlow]; decide
    unfold create_model
    rw [ht]
    simp [Option.getD, hlow, hne, dictGet_dictSet_self, Claude]

/-- Witness for C10 at the mixed-case types "OpenAI" and "ANTHROPIC". -/
theorem C10_case_insensitive_type_witness :
    ((create_model env0 initState ⟨some "OpenAI", some "m1", none, none⟩).1 =
      HResult.ok ⟨(some "m1").getD "default-model",
        (none : Option String).getD "Default Model", "OpenAI", "created"⟩ ∧
      (dictGet ((create_model env0 initState ⟨some "OpenAI", some "m1", none, none⟩).2).models
        ((some "m1").getD "default-model")).map ModelHandle.provider = some Provider.openai) ∧
    ((create_model env0 initState ⟨some "ANTHROPIC", some "m2", none, none⟩).1 =
      HResult.ok ⟨(some "m2").getD "default-model",
        (none : Option String).getD "Default Model", "ANTHROPIC", "created"⟩ ∧
      (dictGet ((create_model env0 initState ⟨some "ANTHROPIC", some "m2", none, none⟩).2).models
        ((some "m2").getD "default-model")).map ModelHandle.provider = some Provider.anthropic) :=
  ⟨C10_case_insensitive_type.1 env0 initState ⟨some "OpenAI", some "m1", none, none⟩
      "OpenAI" rfl (by decide),
   C10_case_insensitive_type.2 env0 initState ⟨some "ANTHROPIC", some "m2", none, none⟩
      "ANTHROPIC" rfl (by decide)⟩

/-- create_agent never touches the model, tool or memory-manager registries. -/
theorem create_agent_frame (s : BridgeState) (p : CreateAgentParams) :
    ((create_agent s p).2).models = s.models ∧ ((create_agent s p).2).tools = s.tools ∧
    ((create_agent s p).2).memory_managers = s.memory_managers := by
  unfold create_agent
  dsimp only
  split <;> exact ⟨rfl, rfl, rfl⟩

/-- What create_agent returns and stores when the referenced model resolves. -/
theorem create_agent_success (s : BridgeState) (p : CreateAgentParams)
    (h : ¬(truthyS p.modelId = true ∧ dictGet s.models (p.modelId.getD "") = none)) :
    create_agent s p =
      (HResult.ok ⟨p.id.getD "default-agent", p.name.getD "Default Agent", "created"⟩,
       { s with agents := (dictSet s.agents (p.id.getD "default-agent")
          (Agent.init (p.name.getD "Default Agent") (p.id.getD "default-agent")
            (if truthyS p.modelId then dictGet s.models (p.modelId.getD "") else none)
            (some (p.systemPrompt.getD ""))
            (if ((p.tools.getD []).filterMap fun tool_id => dictGet s.tools tool_id).isEmpty
             then none
             else some ((p.tools.getD []).filterMap fun tool_id => dictGet s.tools tool_id)))) }) := by
  unfold create_agent
  rw [if_neg h]

/-- create_memory_manager never touches the model, agent or tool registries. -/
theorem create_memory_frame (s : BridgeState) (p : CreateMemoryParams) :
    ((create_memory_manager s p).2).models = s.models ∧
    ((create_memory_manager s p).2).agents = s.agents ∧
    ((create_memory_manager s p).2).tools = s.tools := by
  unfold create_memory_manager
  dsimp only
  split <;> exact ⟨rfl, rfl, rfl⟩

/-- What create_memory_manager returns and stores when the referenced model
resolves. -/
theorem create_memory_success (s : BridgeState) (p : CreateMemoryParams)
    (h : ¬(truthyS p.modelId = true ∧ dictGet s.models (p.modelId.getD "") = none)) :
    create_memory_manager s p =
      (HResult.ok ⟨p.id.getD "default-memory", "created"⟩,
       { s with memory_managers := (dictSet s.memory_managers (p.id.getD "default-memory")
          (MemoryManager.init
            (if truthyS p.modelId then dictGet s.models (p.modelId.getD "") else none)
            (p.limit.getD 100))) }) := by
  unfold create_memory_manager
  rw [if_neg h]

/-- C4: re-creating an entity under an id that is already present silently
replaces the stored entry with the newly constructed one: for each of the four
registries, the entry for the shared id after creating with payload p1 and
then payload p2 equals the entry after a single create with p2 from the same
starting state (last write wins, no merge, no conflict error). -/
theorem C4_create_overwrites :
    (∀ (env : EnvMap) (s : BridgeState) (p1 p2 : CreateModelParams),
      p1.id.getD "default-model" = p2.id.getD "default-model" →
      (lowerStr (p1.type.getD "openai") = "openai" ∨
        lowerStr (p1.type.getD "openai") = "anthropic") →
      (lowerStr (p2.type.getD "openai") = "openai" ∨
        lowerStr (p2.type.getD "openai") = "anthropic") →
      dictGet ((create_model env ((create_model env s p1).2) p2).2).models
          (p2.id.getD "default-model") =
        dictGet ((create_model env s p2).2).models (p2.id.getD "default-model")) ∧
    (∀ (s : BridgeState) (p1 p2 : CreateAgentParams),
      p1.id.getD "default-agent" = p2.id.getD "default-agent" →
      ¬(truthyS p1.modelId = true ∧ dictGet s.models (p1.modelId.getD "") = none) →
      ¬(truthyS p2.modelId = true ∧ dictGet s.models (p2.modelId.getD "") = none) →
      dictGet ((create_agent ((create_agent s p1).2) p2).2).agents
          (p2.id.getD "default-agent") =
        dictGet ((create_agent s p2).2).agents (p2.id.getD "default-agent")) ∧
    (∀ (s : BridgeState) (p1 p2 : CreateToolParams),
      p1.id.getD "default-tool" = p2.id.getD "default-tool" →
      dictGet ((create_tool ((create_tool s p1).2) p2).2).tools
          (p2.id.getD "default-tool") =
        dictGet ((create_tool s p2).2).tools (p2.id.getD "default-tool")) ∧
    (∀ (s : BridgeState) (p1 p2 : CreateMemoryParams),
      p1.id.getD "default-memory" = p2.id.getD "default-memory" →
      ¬(truthyS p1.modelId = true ∧ dictGet s.models (p1.modelId.getD "") = none) →
      ¬(truthyS p2.modelId = true ∧ dictGet s.models (p2.modelId.getD "") = none) →
      dictGet ((create_memory_manager ((create_memory_manager s p1).2) p2).2).memory_managers
          (p2.id.getD "default-memory") =
        dictGet ((create_memory_manager s p2).2).memory_managers
          (p2.id.getD "default-memory")) := by
  refine ⟨?_, ?_, ?_, ?_⟩
  · intro env s p1 p2 hid h1 h2
    rcases h2 with h2 | h2 <;>
      · unfold create_model
        simp [h2, dictGet_dictSet_self]
  · intro s p1 p2 hid h1 h2
    have hf := create_agent_frame s p1
    have h2a : ¬(truthyS p2.modelId = true ∧
        dictGet ((create_agent s p1).2).models (p2.modelId.getD "") = none) := by
      rw [hf.1]
      exact h2
    rw [create_agent_success _ p2 h2a, create_agent_success s p2 h2]
    dsimp only
    rw [dictGet_dictSet_self, dictGet_dictSet_self, hf.1, hf.2.1]
  · intro s p1 p2 hid
    unfold create_tool
    dsimp only
    rw [dictGet_dictSet_self, dictGet_dictSet_self]
  · intro s p1 p2 hid h1 h2
    have hf := create_memory_frame s p1
    have h2a : ¬(truthyS p2.modelId = true ∧
        dictGet ((create_memory_manager s p1).2).models (p2.modelId.getD "") = none) := by
      rw [hf.1]
      exact h2
    rw [create_memory_success _ p2 h2a, create_memory_success s p2 h2]
    dsimp only
    rw [dictGet_dictSet_self, dictGet_dictSet_self, hf.1]

/-- Witness for C4: overwriting under each of the four registries on the
initial state, with the second payload differing from the first. -/
theorem C4_create_overwrites_witness :
    dictGet ((create_model env0 ((create_model env0 initState
        ⟨some "openai", some "x", some "First", none⟩).2)
        ⟨some "anthropic", some "x", some "Second", none⟩).2).models
        ((⟨some "anthropic", some "x", some "Second", none⟩ : CreateModelParams).id.getD
          "default-model") =
      dictGet ((create_model env0 initState
        ⟨some "anthropic", some "x", some "Second", none⟩).2).models
        ((⟨some "anthropic", some "x", some "Second", none⟩ : CreateModelParams).id.getD
          "default-model") ∧
    dictGet ((create_agent ((create_agent initState
        ⟨some "x", some "A1", none, none, none⟩).2)
        ⟨some "x", some "A2", none, some "be brief", none⟩).2).agents
        ((⟨some "x", some "A2", none, some "be brief", none⟩ : CreateAgentParams).id.getD
          "default-agent") =
      dictGet ((create_agent initState
        ⟨some "x", some "A2", none, some "be brief", none⟩).2).agents
        ((⟨some "x", some "A2", none, some "be brief", none⟩ : CreateAgentParams).id.getD
          "default-agent") ∧
    dictGet ((create_tool ((create_tool initState
        ⟨some "x", some "T1", none, none⟩).2)
        ⟨some "x", some "T2", some "d", none⟩).2).tools
        ((⟨some "x", some "T2", some "d", none⟩ : CreateToolParams).id.getD "default-tool") =
      dictGet ((create_tool initState ⟨some "x", some "T2", some "d", none⟩).2).tools
        ((⟨some "x", some "T2", some "d", none⟩ : CreateToolParams).id.getD "default-tool") ∧
    dictGet ((create_memory_manager ((create_memory_manager initState
        ⟨some "x", none, some 5⟩).2) ⟨some "x", none, some 9⟩).2).memory_managers
        ((⟨some "x", none, some 9⟩ : CreateMemoryParams).id.getD "default-memory") =
      dictGet ((create_memory_manager initState ⟨some "x", none, some 9⟩).2).memory_managers
        ((⟨some "x", none, some 9⟩ : CreateMemoryParams).id.getD "default-memory") :=
  ⟨C4_create_overwrites.1 env0 initState _ _ rfl (Or.inl (by decide)) (Or.inr (by decide)),
   C4_create_overwrites.2.1 initState _ _ rfl (by decide) (by decide),
   C4_create_overwrites.2.2.1 initState _ _ rfl,
   C4_create_overwrites.2.2.2 initState _ _ rfl (by decide) (by decide)⟩

/-- C5: a createAgent call whose referenced model resolves succeeds for every
tool id list, and the stored agent's tool list is exactly the lookup results
of the ids that exist in the tool registry, in the order given, with missing
ids silently dropped. -/
theorem C5_agent_tools_resolution (s : BridgeState) (p : CreateAgentParams)
    (h : ¬(truthyS p.modelId = true ∧ dictGet s.models (p.modelId.getD "") = none)) :
    (create_agent s p).1 =
      HResult.ok ⟨p.id.getD "default-agent", p.name.getD "Default Agent", "created"⟩ ∧
    (dictGet ((create_agent s p).2).agents (p.id.getD "default-agent")).map Agent.tools =
      some ((p.tools.getD []).filterMap fun tool_id => dictGet s.tools tool_id) := by
  rw [create_agent_success s p h]
  refine ⟨rfl, ?_⟩
  dsimp only
  rw [dictGet_dictSet_self]
  by_cases he : ((p.tools.getD []).filterMap fun tool_id => dictGet s.tools tool_id) = []
  · simp [Agent.init, he]
  · simp [Agent.init, he]

/-- Witness for C5: three requested tool ids of which exactly two exist. -/
theorem C5_agent_tools_resolution_witness :
    (create_agent wState5 ⟨some "a1", some "A", none, none,
      some ["t1", "missing", "t2"]⟩).1 = HResult.ok ⟨"a1", "A", "created"⟩ ∧
    (dictGet ((create_agent wState5 ⟨some "a1", some "A", none, none,
      some ["t1", "missing", "t2"]⟩).2).agents "a1").map Agent.tools =
      some [⟨"Tool One", some "", []⟩, ⟨"Tool Two", some "", []⟩] :=
  C5_agent_tools_resolution wState5
    ⟨some "a1", some "A", none, none, some ["t1", "missing", "t2"]⟩ (by decide)

/-- C6: running an agent that is present in the registry returns content,
agentId and the echoed workspaceId, where content is the executing string
around the request message when the agent holds a model, and exactly the
no-model string otherwise. -/
theorem C6_run_agent_output (s : BridgeState) (agent_id : String) (a : Agent)
    (p : RunAgentParams) (h : dictGet s.agents agent_id = some a) :
    (run_agent s agent_id p).1 = HResult.ok
      ⟨(match a.model with
        | some _ => "I am " ++ a.name ++ ", executing a response based on: " ++ p.message.getD ""
        | none => "No model available for this agent"),
       agent_id, p.workspaceId⟩ := by
  unfold run_agent
  rw [h]
  dsimp only
  by_cases ht : truthyI p.workspaceId = true <;>
    cases hm : a.model <;>
      simp [ht, hm, Agent.run, formatOpt]

/-- Witness for C6: an agent with no model answers the fixed no-model
string. -/
theorem C6_run_agent_output_witness :
    (run_agent wStateA "a1" ⟨some "hello", none⟩).1 = HResult.ok
      ⟨"No model available for this agent", "a1", none⟩ :=
  C6_run_agent_output wStateA "a1" agentNoModel ⟨some "hello", none⟩ rfl

/-- C7 counterexample: workspaceId 0 is given but falsy in Python, so run_agent
leaves the stored agent's session_id at its previous value "5" instead of
setting it to the stringified workspaceId "0", as the claim would require. -/
theorem C7_run_agent_frame_counterexample :
    dictGet cexState7.agents "a1" = some agentSession5 ∧
    (run_agent cexState7 "a1" ⟨some "m", some 0⟩).1 =
      HResult.ok ⟨"No model available for this agent", "a1", some 0⟩ ∧
    (dictGet ((run_agent cexState7 "a1" ⟨some "m", some 0⟩).2).agents "a1").map
      Agent.session_id = some (some "5") ∧
    some (some "5") ≠ some (some (toString (0 : Int))) := by
  refine ⟨rfl, rfl, rfl, by decide⟩

/-- C7 (amended): running an agent present in the registry changes only that
agent's entry, setting its user_message to the request message and, when
workspaceId is given and truthy (nonzero), its session_id to the stringified
workspaceId; every other field of the agent, every other agent entry, and the
other three registries are unchanged. -/
theorem C7_run_agent_frame (s : BridgeState) (agent_id : String) (a : Agent)
    (p : RunAgentParams) (h : dictGet s.agents agent_id = some a) :
    ((run_agent s agent_id p).2).models = s.models ∧
    ((run_agent s agent_id p).2).tools = s.tools ∧
    ((run_agent s agent_id p).2).memory_managers = s.memory_managers ∧
    dictGet ((run_agent s agent_id p).2).agents agent_id = some
      ⟨a.name, a.agent_id, a.model, a.system_message, a.tools, some (p.message.getD ""),
       if truthyI p.workspaceId then some (toString (p.workspaceId.getD 0))
       else a.session_id⟩ ∧
    (∀ k, k ≠ agent_id →
      dictGet ((run_agent s agent_id p).2).agents k = dictGet s.agents k) := by
  unfold run_agent
  rw [h]
  dsimp only
  by_cases ht : truthyI p.workspaceId = true
  · refine ⟨rfl, rfl, rfl, ?_, fun k hk => ?_⟩
    · rw [if_pos ht, if_pos ht, dictGet_dictSet_self]
    · rw [dictGet_dictSet_ne _ _ _ _ hk]
  · refine ⟨rfl, rfl, rfl, ?_, fun k hk => ?_⟩
    · rw [if_neg ht, if_neg ht, dictGet_dictSet_self]
    · rw [dictGet_dictSet_ne _ _ _ _ hk]

/-- Witness for C7 (amended) with a truthy workspaceId 7 on an agent whose id
is a1, also checking an unrelated key a2 is untouched. -/
theorem C7_run_agent_frame_witness :
    ((run_agent wStateA "a1" ⟨some "hi", some 7⟩).2).models = wStateA.models ∧
    ((run_agent wStateA "a1" ⟨some "hi", some 7⟩).2).tools = wStateA.tools ∧
    ((run_agent wStateA "a1" ⟨some "hi", some 7⟩).2).memory_managers =
      wStateA.memory_managers ∧
    dictGet ((run_agent wStateA "a1" ⟨some "hi", some 7⟩).2).agents "a1" = some
      ⟨agentNoModel.name, agentNoModel.agent_id, agentNoModel.model,
       agentNoModel.system_message, agentNoModel.tools, some "hi",
       if truthyI (some 7) then some (toString ((some (7 : Int)).getD 0))
       else agentNoModel.session_id⟩ ∧
    dictGet ((run_agent wStateA "a1" ⟨some "hi", some 7⟩).2).agents "a2" =
      dictGet wStateA.agents "a2" := by
  obtain ⟨h1, h2, h3, h4, h5⟩ :=
    C7_run_agent_frame wStateA "a1" agentNoModel ⟨some "hi", some 7⟩ rfl
  exact ⟨h1, h2, h3, h4, h5 "a2" (by decide)⟩

end AgnoBridge
